import Mathlib

/-!
# Verification of the CityGenerator LOD / adaptive-quality subsystem

Shallow embedding of the level-of-detail partitioning and performance
logic of the CityGenerator repository:

* `lodGroups` embeds the `lodGroups` memo of
  `src/components/LODManager.tsx` (lines 48-82): buildings are decorated
  with their distance to the camera, stably sorted by ascending distance
  (JavaScript `Array.prototype.sort` is stable), and assigned to five
  LOD buckets by an if/else-if chain with capacity checks on buckets 0
  and 1.
* `categorizeBuildingsForInstancing` embeds the function of the same
  name in the instanced-building component: buildings are grouped by a
  key made of a height class and a material type, in first-occurrence
  (JavaScript object insertion) order.
* `adaptQuality`, `applyLOD` (as `lodLevelOf` / `applyLODVisible`) and
  `updateMetrics` embed the corresponding members of
  `PerformanceOptimizer`.
* `updatePerformanceFps` embeds the smoothed-FPS update of the
  `useFrame` callback in `LODManager.tsx`, over a small model `JSVal`
  of JavaScript IEEE-754 special values (`Infinity`, `-Infinity`,
  `NaN`), since `1 / 0` does not raise in JavaScript.

Numeric values are embedded as rationals.  The source compares the
Euclidean distance `d = sqrt(dx² + dy² + dz²)` against non-negative
thresholds `t`; since `d < t ↔ d² < t²` for `d, t ≥ 0`, the embedding
carries the squared distance and compares it against squared
thresholds, which keeps every definition executable over `ℚ`.
-/

namespace CityGenerator

/-- The four material types of the `Building` interface in
`LODManager.tsx` (`'glass' | 'concrete' | 'metal' | 'brick'`). -/
inductive MaterialType where
  | glass
  | concrete
  | metal
  | brick
deriving DecidableEq, Fintype, Repr

/-- The fields of the `Building` interface that the LOD logic reads:
`id`, `position`, `scale` (width, height, depth) and `materialType`.
`type`, `color` and `hasDetails` are never inspected by the partition
or batching code and are omitted. -/
structure Building where
  id : String
  position : ℚ × ℚ × ℚ
  scale : ℚ × ℚ × ℚ
  materialType : MaterialType
deriving DecidableEq, Repr

/-- Squared Euclidean distance between two points; stands for
`new THREE.Vector3(...building.position).distanceTo(cameraPos)`
squared (see the header comment on squared-distance comparisons). -/
def sqDist (p q : ℚ × ℚ × ℚ) : ℚ :=
  (p.1 - q.1) * (p.1 - q.1) + (p.2.1 - q.2.1) * (p.2.1 - q.2.1) +
    (p.2.2 - q.2.2) * (p.2.2 - q.2.2)

/-- The `LOD_DISTANCES` constant of `LODManager.tsx`, as a record so
that the partitioner can also be run on other (possibly malformed)
tables. -/
structure LodDistanceTable where
  ULTRA_HIGH : ℚ
  HIGH : ℚ
  MEDIUM : ℚ
  LOW : ℚ
  VERY_LOW : ℚ
deriving DecidableEq, Repr

/-- `LOD_DISTANCES` from `LODManager.tsx` lines 24-31. -/
def LOD_DISTANCES : LodDistanceTable :=
  { ULTRA_HIGH := 100, HIGH := 250, MEDIUM := 500, LOW := 1000, VERY_LOW := 2500 }

/-- A building decorated with its squared distance to the camera
(`{ ...building, distance }` in the source). -/
abbrev BuildingD := Building × ℚ

/-- The sort order of `.sort((a, b) => a.distance - b.distance)`:
ascending distance.  JavaScript `Array.prototype.sort` is stable, and
`insertionSort` with a `≤`-comparison is stable in the same sense. -/
def distLE (a b : BuildingD) : Prop := a.2 ≤ b.2

instance : DecidableRel distLE := fun a b => inferInstanceAs (Decidable (a.2 ≤ b.2))

instance : IsTotal BuildingD distLE := ⟨fun a b => le_total a.2 b.2⟩

instance : IsTrans BuildingD distLE := ⟨fun _ _ _ h1 h2 => le_trans h1 h2⟩

/-- `buildingsWithDistance` from `LODManager.tsx` lines 59-62: decorate
every building with its distance to the camera and stably sort by
ascending distance. -/
def buildingsWithDistance (buildings : List Building) (cameraPos : ℚ × ℚ × ℚ) :
    List BuildingD :=
  (buildings.map fun b => (b, sqDist b.position cameraPos)).insertionSort distLE

/-- The five LOD buckets of the `groups` object in `lodGroups`
(`0`: ultra high, `1`: high, `2`: medium instanced, `3`: low instanced,
`4`: very low instanced).  Buildings beyond `VERY_LOW` are culled and
appear in no bucket. -/
structure Groups where
  g0 : List BuildingD
  g1 : List BuildingD
  g2 : List BuildingD
  g3 : List BuildingD
  g4 : List BuildingD
deriving DecidableEq, Repr

/-- The empty `groups` object `{0: [], 1: [], 2: [], 3: [], 4: []}`. -/
def Groups.empty : Groups := ⟨[], [], [], [], []⟩

/-- One iteration of the `buildingsWithDistance.forEach` body in
`LODManager.tsx` lines 64-79.  `m` is `maxDetailedBuildings`; the
bucket-0 capacity check `groups[0].length < maxDetailedBuildings / 2`
(a JavaScript float division) is the rational inequality
`len < m / 2`, i.e. `2 * len < m`. -/
def lodAssign (T : LodDistanceTable) (m : ℕ) (G : Groups) (b : BuildingD) : Groups :=
  if b.2 < T.ULTRA_HIGH * T.ULTRA_HIGH ∧ 2 * G.g0.length < m then
    { G with g0 := G.g0 ++ [b] }
  else if b.2 < T.HIGH * T.HIGH ∧ G.g1.length < m then
    { G with g1 := G.g1 ++ [b] }
  else if b.2 < T.MEDIUM * T.MEDIUM then
    { G with g2 := G.g2 ++ [b] }
  else if b.2 < T.LOW * T.LOW then
    { G with g3 := G.g3 ++ [b] }
  else if b.2 < T.VERY_LOW * T.VERY_LOW then
    { G with g4 := G.g4 ++ [b] }
  else
    G

/-- The `lodGroups` computation of `LODManager.tsx` lines 48-82,
parameterized by the distance table. -/
def lodGroupsWith (T : LodDistanceTable) (buildings : List Building)
    (cameraPos : ℚ × ℚ × ℚ) (m : ℕ) : Groups :=
  (buildingsWithDistance buildings cameraPos).foldl (lodAssign T m) Groups.empty

/-- The `lodGroups` computation with the hard-coded `LOD_DISTANCES`
table, exactly as the component uses it.  `m` is the
`maxDetailedBuildings` prop (default `50`). -/
def lodGroups (buildings : List Building) (cameraPos : ℚ × ℚ × ℚ) (m : ℕ) : Groups :=
  lodGroupsWith LOD_DISTANCES buildings cameraPos m

/-- All assigned (non-culled) buildings, in bucket order. -/
def Groups.allMembers (G : Groups) : List BuildingD :=
  G.g0 ++ G.g1 ++ G.g2 ++ G.g3 ++ G.g4

/-- The number of LOD levels of the manager: the `groups` object has
keys `0`-`4` and `LOD_DISTANCES` has five thresholds. -/
def lodTierCount : ℕ := 5

/-!
## Instanced batching (`InstancedBuildingSystem`)

`categorizeBuildingsForInstancing` groups buildings into instanced
draw batches keyed by a height class (from `scale[1]`) and the
material type.
-/

/-- The four height classes of `categorizeBuildingsForInstancing`
(`low` < 30, `medium` < 100, `high` < 200, else `skyscraper`). -/
inductive HeightClass where
  | low
  | medium
  | high
  | skyscraper
deriving DecidableEq, Fintype, Repr

/-- The `categoryKey` string `` `${heightClass}_${material}` `` of
`categorizeBuildingsForInstancing`, as a pair. -/
abbrev CategoryKey := HeightClass × MaterialType

/-- Height classification from `building.scale[1]`. -/
def heightClassOf (h : ℚ) : HeightClass :=
  if h < 30 then .low
  else if h < 100 then .medium
  else if h < 200 then .high
  else .skyscraper

/-- The grouping key of one building. -/
def categoryKey (b : Building) : CategoryKey :=
  (heightClassOf b.scale.2.1, b.materialType)

/-- One iteration of the `buildings.forEach` body: append the building
to its category's list, creating the category on first occurrence.
JavaScript object keys of this shape enumerate in insertion order, so
the category list is kept in first-occurrence order. -/
def addToCategories (cats : List (CategoryKey × List Building)) (b : Building) :
    List (CategoryKey × List Building) :=
  let k := categoryKey b
  if cats.any fun c => c.1 = k then
    cats.map fun c => if c.1 = k then (c.1, c.2 ++ [b]) else c
  else
    cats ++ [(k, [b])]

/-- `categorizeBuildingsForInstancing` from the instanced-building
component (lines 99-143): group the buildings of one instanced LOD
bucket by `(height class, material)`. -/
def categorizeBuildingsForInstancing (buildings : List Building) :
    List (CategoryKey × List Building) :=
  buildings.foldl addToCategories []

/-- Total number of instanced batches produced for a scene: `LODManager`
(lines 153-175) mounts one `InstancedBuildingSystem` for each of the
buckets 2, 3 and 4, and each system renders one `instancedMesh` per
category returned by `categorizeBuildingsForInstancing`. -/
def instancedBatchCount (buildings : List Building) (cameraPos : ℚ × ℚ × ℚ) (m : ℕ) : ℕ :=
  let G := lodGroups buildings cameraPos m
  (categorizeBuildingsForInstancing (G.g2.map Prod.fst)).length +
    (categorizeBuildingsForInstancing (G.g3.map Prod.fst)).length +
    (categorizeBuildingsForInstancing (G.g4.map Prod.fst)).length

/-!
## JavaScript number model for the frame sampler

The `useFrame` callback of `LODManager.tsx` (lines 102-113) computes
`fps = Math.round(1 / deltaTime)` and
`smoothed = Math.round(prev * 0.9 + fps * 0.1)`.  JavaScript numbers
are IEEE-754 doubles: `1 / 0` is `Infinity` and no exception is ever
raised.  `JSVal` models a JavaScript number as a rational, an
infinity, or `NaN` (the float rounding of `0.9` and `0.1` is not
modelled; only order and speciality of values matter here). -/
inductive JSVal where
  | num (q : ℚ)
  | posInf
  | negInf
  | nan
deriving DecidableEq, Repr

/-- JavaScript addition on the model. -/
def jsAdd : JSVal → JSVal → JSVal
  | .nan, _ => .nan
  | _, .nan => .nan
  | .posInf, .negInf => .nan
  | .negInf, .posInf => .nan
  | .posInf, _ => .posInf
  | _, .posInf => .posInf
  | .negInf, _ => .negInf
  | _, .negInf => .negInf
  | .num a, .num b => .num (a + b)

/-- JavaScript multiplication on the model (`0 * Infinity` is `NaN`). -/
def jsMul : JSVal → JSVal → JSVal
  | .nan, _ => .nan
  | _, .nan => .nan
  | .num a, .posInf => if a = 0 then .nan else if 0 < a then .posInf else .negInf
  | .posInf, .num a => if a = 0 then .nan else if 0 < a then .posInf else .negInf
  | .num a, .negInf => if a = 0 then .nan else if 0 < a then .negInf else .posInf
  | .negInf, .num a => if a = 0 then .nan else if 0 < a then .negInf else .posInf
  | .posInf, .posInf => .posInf
  | .negInf, .negInf => .posInf
  | .posInf, .negInf => .negInf
  | .negInf, .posInf => .negInf
  | .num a, .num b => .num (a * b)

/-- JavaScript division on the model (`x / 0` is `±Infinity` for
`x ≠ 0`, `0 / 0` is `NaN`; negative zero is not modelled). -/
def jsDiv : JSVal → JSVal → JSVal
  | .nan, _ => .nan
  | _, .nan => .nan
  | .num a, .num b =>
      if b = 0 then (if a = 0 then .nan else if 0 < a then .posInf else .negInf)
      else .num (a / b)
  | .num _, .posInf => .num 0
  | .num _, .negInf => .num 0
  | .posInf, .num b => if 0 ≤ b then .posInf else .negInf
  | .negInf, .num b => if 0 ≤ b then .negInf else .posInf
  | .posInf, _ => .nan
  | .negInf, _ => .nan

/-- `Math.round` on rationals: round half up. -/
def jsRoundQ (q : ℚ) : ℚ := ((⌊q + 1 / 2⌋ : ℤ) : ℚ)

/-- `Math.round` on the model (`Math.round(±Infinity) = ±Infinity`,
`Math.round(NaN) = NaN`). -/
def jsRound : JSVal → JSVal
  | .num q => .num (jsRoundQ q)
  | v => v

/-- The smoothed-FPS update of the `useFrame` callback in
`LODManager.tsx` lines 106-110:
`fps = Math.round(1 / deltaTime)` and the new smoothed value
`Math.round(prevFps * 0.9 + fps * 0.1)`. -/
def updatePerformanceFps (prevFps deltaTime : JSVal) : JSVal :=
  let fps := jsRound (jsDiv (.num 1) deltaTime)
  jsRound (jsAdd (jsMul prevFps (.num (9 / 10))) (jsMul fps (.num (1 / 10))))

/-!
## `PerformanceOptimizer` (adaptive quality, LOD application, metrics)
-/

/-- The `lodDistances` sub-record of `OptimizationSettings`. -/
structure LodDistances where
  high : ℚ
  medium : ℚ
  low : ℚ
deriving DecidableEq, Repr

/-- The fields of `OptimizationSettings` that the embedded operations
read or write. -/
structure OptimizationSettings where
  enableLOD : Bool
  enableFrustumCulling : Bool
  maxRenderDistance : ℚ
  lodDistances : LodDistances
  targetFPS : ℚ
  adaptiveQuality : Bool
deriving DecidableEq, Repr

/-- The initial `settings` value of `PerformanceOptimizer`. -/
def initialSettings : OptimizationSettings :=
  { enableLOD := true
    enableFrustumCulling := false
    maxRenderDistance := 5000
    lodDistances := { high := 1200, medium := 2500, low := 4000 }
    targetFPS := 60
    adaptiveQuality := false }

/-- `PerformanceOptimizer.adaptQuality` (lines 343-357).  The source
computes `avgFPS = fpsHistory.reduce((a, b) => a + b, 0) /
fpsHistory.length`; for an empty history this is `0 / 0 = NaN` in
JavaScript and both comparisons are false, so the settings are
unchanged — hence the explicit empty-history case. -/
def adaptQuality (s : OptimizationSettings) (fpsHistory : List ℚ) :
    OptimizationSettings :=
  if fpsHistory.length = 0 then s
  else
    let avgFPS := fpsHistory.sum / (fpsHistory.length : ℚ)
    if avgFPS < s.targetFPS * (8 / 10) then
      { s with
        lodDistances :=
          { s.lodDistances with
            high := max 200 (s.lodDistances.high * (9 / 10))
            medium := max 800 (s.lodDistances.medium * (9 / 10)) }
        maxRenderDistance := max 2000 (s.maxRenderDistance * (95 / 100)) }
    else if s.targetFPS * (11 / 10) < avgFPS then
      { s with
        lodDistances :=
          { s.lodDistances with
            high := min 600 (s.lodDistances.high * (21 / 20))
            medium := min 1800 (s.lodDistances.medium * (21 / 20)) }
        maxRenderDistance := min 4000 (s.maxRenderDistance * (102 / 100)) }
    else s

/-- Settings reachable from the initial configuration by a sequence of
`adaptQuality` evaluations (one history snapshot per evaluation). -/
def runAdapt (histories : List (List ℚ)) : OptimizationSettings :=
  histories.foldl adaptQuality initialSettings

/-- The LOD level chosen by `PerformanceOptimizer.applyLOD`
(lines 396-407): `0` high, `1` medium, `2` low, `3` culled. -/
def lodLevelOf (s : OptimizationSettings) (distance : ℚ) : ℕ :=
  if s.lodDistances.low < distance then 3
  else if s.lodDistances.medium < distance then 2
  else if s.lodDistances.high < distance then 1
  else 0

/-- The visibility `applyLOD` gives the object (lines 410-413):
invisible exactly when the level is `≥ 3`. -/
def applyLODVisible (s : OptimizationSettings) (distance : ℚ) : Bool :=
  decide (lodLevelOf s distance < 3)

/-- Strict ordering of the distance thresholds (plus headroom of the
untouched `low` threshold), the invariant maintained by
`adaptQuality`. -/
def SettingsOrdered (s : OptimizationSettings) : Prop :=
  0 < s.lodDistances.high ∧ s.lodDistances.high < s.lodDistances.medium ∧
    s.lodDistances.medium < s.lodDistances.low ∧ 1800 < s.lodDistances.low

/-- The mutable state of `PerformanceOptimizer` that `updateMetrics`
touches. -/
structure OptimizerState where
  frameCount : ℕ
  lastTime : ℚ
  fps : ℚ
  fpsHistory : List ℚ
  settings : OptimizationSettings
deriving DecidableEq, Repr

/-- Construction-time state: `frameCount = 0`, `fps` metric `60`,
empty `fpsHistory` (`lastTime` is `performance.now()` at construction;
the embedding starts the clock at `0`). -/
def initialOptimizerState : OptimizerState :=
  { frameCount := 0, lastTime := 0, fps := 60, fpsHistory := [], settings := initialSettings }

/-- `PerformanceOptimizer.updateMetrics` (lines 308-341), restricted to
the fields it reads and writes: increment `frameCount`; once a second
has elapsed, compute the FPS, push it on `fpsHistory`, drop the oldest
entry when the history exceeds 10 (`shift`), and reset the counters;
finally run `adaptQuality` when `settings.adaptiveQuality` is set. -/
def updateMetrics (st : OptimizerState) (currentTime : ℚ) : OptimizerState :=
  let fc := st.frameCount + 1
  if st.lastTime + 1000 ≤ currentTime then
    let fps := jsRoundQ ((fc * 1000 : ℚ) / (currentTime - st.lastTime))
    let hist0 := st.fpsHistory ++ [fps]
    let hist := if 10 < hist0.length then hist0.tail else hist0
    let st' := { st with frameCount := 0, lastTime := currentTime, fps := fps,
                         fpsHistory := hist }
    if st'.settings.adaptiveQuality then
      { st' with settings := adaptQuality st'.settings st'.fpsHistory }
    else st'
  else
    { st with frameCount := fc }

/-!
## Concrete inputs used by witnesses and counterexamples
-/

/-- Three buildings at the same distance (squared distance `100`) from
the origin, supplied in the input order `"b"`, `"c"`, `"a"`. -/
def tieB : Building := ⟨"b", (10, 0, 0), (20, 10, 20), .glass⟩

/-- See `tieB`. -/
def tieC : Building := ⟨"c", (10, 0, 0), (20, 10, 20), .glass⟩

/-- See `tieB`. -/
def tieA : Building := ⟨"a", (10, 0, 0), (20, 10, 20), .glass⟩

/-- The tie-breaking example object set, in input order. -/
def tieSet : List Building := [tieB, tieC, tieA]

/-- Three buildings at squared distances `100`, `400`, `900` from the
origin, all within the ultra-high range. -/
def nearB1 : Building := ⟨"n1", (10, 0, 0), (20, 10, 20), .glass⟩

/-- See `nearB1`. -/
def nearB2 : Building := ⟨"n2", (20, 0, 0), (20, 10, 20), .glass⟩

/-- See `nearB1`. -/
def nearB3 : Building := ⟨"n3", (30, 0, 0), (20, 10, 20), .glass⟩

/-- Example object set where both capacity-limited buckets overflow for
`maxDetailedBuildings = 1`. -/
def nearSet : List Building := [nearB1, nearB2, nearB3]

/-- A strictly decreasing — hence malformed — distance table. -/
def malformedTable : LodDistanceTable :=
  { ULTRA_HIGH := 500, HIGH := 400, MEDIUM := 300, LOW := 200, VERY_LOW := 100 }

/-- Two buildings at distances `250` and `450` from the origin, used to
run the partitioner on `malformedTable`. -/
def malB1 : Building := ⟨"m1", (250, 0, 0), (20, 10, 20), .glass⟩

/-- See `malB1`. -/
def malB2 : Building := ⟨"m2", (450, 0, 0), (20, 10, 20), .glass⟩

/-- A building for the batch-bound counterexample: id, x-coordinate
(distance from the origin camera), height (`scale[1]`) and material. -/
def mkBatchB (i : String) (x h : ℚ) (mt : MaterialType) : Building :=
  ⟨i, (x, 0, 0), (20, h, 20), mt⟩

/-- 21 buildings: at distance `300` (bucket 2) one building for each of
the 16 `(height class, material)` pairs, and at distance `600`
(bucket 3) five more pairs.  Every instanced batch then holds exactly
one building, giving 21 batches. -/
def batchSet : List Building :=
  [ mkBatchB "p01" 300 10 .glass, mkBatchB "p02" 300 10 .concrete,
    mkBatchB "p03" 300 10 .metal, mkBatchB "p04" 300 10 .brick,
    mkBatchB "p05" 300 50 .glass, mkBatchB "p06" 300 50 .concrete,
    mkBatchB "p07" 300 50 .metal, mkBatchB "p08" 300 50 .brick,
    mkBatchB "p09" 300 150 .glass, mkBatchB "p10" 300 150 .concrete,
    mkBatchB "p11" 300 150 .metal, mkBatchB "p12" 300 150 .brick,
    mkBatchB "p13" 300 250 .glass, mkBatchB "p14" 300 250 .concrete,
    mkBatchB "p15" 300 250 .metal, mkBatchB "p16" 300 250 .brick,
    mkBatchB "p17" 600 10 .glass, mkBatchB "p18" 600 50 .glass,
    mkBatchB "p19" 600 150 .glass, mkBatchB "p20" 600 250 .glass,
    mkBatchB "p21" 600 10 .concrete ]

/-- The number of distinct material categories appearing in an object
set. -/
def distinctMaterialCount (buildings : List Building) : ℕ :=
  (buildings.map Building.materialType).dedup.length

end CityGenerator


namespace CityGenerator

lemma lodAssign_eq_of_culled (m : ℕ) (G : Groups) (b : BuildingD)
    (h : ¬ b.2 < LOD_DISTANCES.VERY_LOW * LOD_DISTANCES.VERY_LOW) :
    lodAssign LOD_DISTANCES m G b = G := by
  simp only [LOD_DISTANCES] at h
  have hv : (2500 : ℚ) * 2500 ≤ b.2 := not_lt.mp h
  have h0 : ¬ b.2 < 100 * 100 := by intro hc; linarith
  have h1 : ¬ b.2 < 250 * 250 := by intro hc; linarith
  have h2 : ¬ b.2 < 500 * 500 := by intro hc; linarith
  have h3 : ¬ b.2 < 1000 * 1000 := by intro hc; linarith
  simp only [lodAssign, LOD_DISTANCES]
  rw [if_neg (fun hc => h0 hc.1), if_neg (fun hc => h1 hc.1), if_neg h2, if_neg h3,
    if_neg (not_lt.mpr hv)]

lemma allMembers_lodAssign_perm (m : ℕ) (G : Groups) (b : BuildingD)
    (h : b.2 < LOD_DISTANCES.VERY_LOW * LOD_DISTANCES.VERY_LOW) :
    (lodAssign LOD_DISTANCES m G b).allMembers.Perm (b :: G.allMembers) := by
  simp only [LOD_DISTANCES] at h
  simp only [lodAssign, Groups.allMembers, LOD_DISTANCES]
  split_ifs with h0 h1 h2 h3 <;>
    (rw [List.perm_iff_count]; intro a; simp [List.count_append, List.count_cons]; omega)

lemma allMembers_foldl_perm (m : ℕ) :
    ∀ (l : List BuildingD) (G : Groups),
      ((l.foldl (lodAssign LOD_DISTANCES m) G).allMembers).Perm
        ((l.filter fun b =>
            decide (b.2 < LOD_DISTANCES.VERY_LOW * LOD_DISTANCES.VERY_LOW)) ++ G.allMembers)
  | [], G => by simp
  | b :: l, G => by
      rw [List.foldl_cons]
      by_cases h : b.2 < LOD_DISTANCES.VERY_LOW * LOD_DISTANCES.VERY_LOW
      · have ih := allMembers_foldl_perm m l (lodAssign LOD_DISTANCES m G b)
        have hstep := allMembers_lodAssign_perm m G b h
        have h2 : ((l.filter fun b =>
              decide (b.2 < LOD_DISTANCES.VERY_LOW * LOD_DISTANCES.VERY_LOW)) ++
              (lodAssign LOD_DISTANCES m G b).allMembers).Perm
            ((l.filter fun b =>
              decide (b.2 < LOD_DISTANCES.VERY_LOW * LOD_DISTANCES.VERY_LOW)) ++
              (b :: G.allMembers)) := List.Perm.append_left _ hstep
        have h3 := (ih.trans h2).trans (List.perm_middle)
        rw [List.filter_cons_of_pos (by simpa using h)]
        exact h3
      · have ih := allMembers_foldl_perm m l G
        rw [lodAssign_eq_of_culled m G b h, List.filter_cons_of_neg (by simpa using h)]
        exact ih

/-- C1: partition completeness.  One partition pass assigns each object to
exactly one LOD bucket or to the culled bucket: the concatenation of the
five buckets is a permutation of (hence has the same multiplicities as)
the decorated object set restricted to objects strictly within the last
tier's `maxDistance`; an object at or beyond `VERY_LOW` appears in no
bucket. -/
theorem lodGroups_partition_complete (buildings : List Building)
    (cameraPos : ℚ × ℚ × ℚ) (m : ℕ) :
    ((lodGroups buildings cameraPos m).allMembers).Perm
      ((buildings.map fun b => (b, sqDist b.position cameraPos)).filter
        fun x => decide (x.2 < LOD_DISTANCES.VERY_LOW * LOD_DISTANCES.VERY_LOW)) := by
  have h1 := allMembers_foldl_perm m (buildingsWithDistance buildings cameraPos) Groups.empty
  have h2 : (Groups.empty).allMembers = [] := rfl
  rw [h2, List.append_nil] at h1
  have h3 : (buildingsWithDistance buildings cameraPos).Perm
      (buildings.map fun b => (b, sqDist b.position cameraPos)) :=
    List.perm_insertionSort distLE _
  exact h1.trans (h3.filter _)

lemma lodAssign_g0_pos (T : LodDistanceTable) (m : ℕ) (G : Groups) (b : BuildingD)
    (h : b.2 < T.ULTRA_HIGH * T.ULTRA_HIGH ∧ 2 * G.g0.length < m) :
    (lodAssign T m G b).g0 = G.g0 ++ [b] := by
  simp only [lodAssign]
  rw [if_pos h]

lemma lodAssign_g0_neg (T : LodDistanceTable) (m : ℕ) (G : Groups) (b : BuildingD)
    (h : ¬(b.2 < T.ULTRA_HIGH * T.ULTRA_HIGH ∧ 2 * G.g0.length < m)) :
    (lodAssign T m G b).g0 = G.g0 := by
  simp only [lodAssign]
  rw [if_neg h]
  split_ifs <;> rfl

lemma lodAssign_g1_cases (T : LodDistanceTable) (m : ℕ) (G : Groups) (b : BuildingD) :
    (lodAssign T m G b).g1 = G.g1 ∨
      (G.g1.length < m ∧ (lodAssign T m G b).g1 = G.g1 ++ [b]) := by
  simp only [lodAssign]
  split_ifs with h0 h1 <;>
    first
      | exact Or.inl rfl
      | exact Or.inr ⟨h1.2, rfl⟩

lemma foldl_g0_append (T : LodDistanceTable) (m : ℕ) :
    ∀ (l : List BuildingD) (G : Groups),
      ∃ t, ((l.foldl (lodAssign T m) G).g0) = G.g0 ++ t
  | [], G => ⟨[], by simp⟩
  | b :: l, G => by
      obtain ⟨t, ht⟩ := foldl_g0_append T m l (lodAssign T m G b)
      rw [List.foldl_cons]
      by_cases h : b.2 < T.ULTRA_HIGH * T.ULTRA_HIGH ∧ 2 * G.g0.length < m
      · exact ⟨[b] ++ t, by rw [ht, lodAssign_g0_pos T m G b h, List.append_assoc]⟩
      · exact ⟨t, by rw [ht, lodAssign_g0_neg T m G b h]⟩

lemma foldl_g1_append (T : LodDistanceTable) (m : ℕ) :
    ∀ (l : List BuildingD) (G : Groups),
      ∃ t, ((l.foldl (lodAssign T m) G).g1) = G.g1 ++ t
  | [], G => ⟨[], by simp⟩
  | b :: l, G => by
      obtain ⟨t, ht⟩ := foldl_g1_append T m l (lodAssign T m G b)
      rw [List.foldl_cons]
      rcases lodAssign_g1_cases T m G b with h1 | ⟨_, h1⟩
      · exact ⟨t, by rw [ht, h1]⟩
      · exact ⟨[b] ++ t, by rw [ht, h1, List.append_assoc]⟩

lemma foldl_g1_frozen (T : LodDistanceTable) (m : ℕ) :
    ∀ (l : List BuildingD) (G : Groups), G.g1.length = m →
      ((l.foldl (lodAssign T m) G).g1) = G.g1
  | [], _, _ => rfl
  | b :: l, G, h => by
      have hg1 : (lodAssign T m G b).g1 = G.g1 := by
        rcases lodAssign_g1_cases T m G b with h1 | ⟨hlt, _⟩
        · exact h1
        · exact absurd hlt (by omega)
      rw [List.foldl_cons, foldl_g1_frozen T m l _ (by rw [hg1, h]), hg1]

lemma foldl_g1_le (T : LodDistanceTable) (m : ℕ) :
    ∀ (l : List BuildingD) (G : Groups), G.g1.length ≤ m →
      ((l.foldl (lodAssign T m) G).g1).length ≤ m
  | [], _, h => h
  | b :: l, G, h => by
      rw [List.foldl_cons]
      apply foldl_g1_le T m l
      rcases lodAssign_g1_cases T m G b with h1 | ⟨hlt, h1⟩ <;> rw [h1]
      · exact h
      · rw [List.length_append]
        simpa using hlt

lemma foldl_g0_take (m : ℕ) :
    ∀ (l : List BuildingD) (G : Groups), G.g0.length ≤ (m + 1) / 2 →
      ((l.foldl (lodAssign LOD_DISTANCES m) G).g0)
        = G.g0 ++ ((l.filter fun b =>
            decide (b.2 < LOD_DISTANCES.ULTRA_HIGH * LOD_DISTANCES.ULTRA_HIGH)).take
              ((m + 1) / 2 - G.g0.length))
  | [], G, _ => by simp
  | b :: l, G, hle => by
      rw [List.foldl_cons]
      by_cases hP : b.2 < LOD_DISTANCES.ULTRA_HIGH * LOD_DISTANCES.ULTRA_HIGH
      · by_cases hl : 2 * G.g0.length < m
        · have hg0 : (lodAssign LOD_DISTANCES m G b).g0 = G.g0 ++ [b] :=
            lodAssign_g0_pos _ _ _ _ ⟨hP, hl⟩
          have hlen : (lodAssign LOD_DISTANCES m G b).g0.length ≤ (m + 1) / 2 := by
            rw [hg0, List.length_append, List.length_singleton]
            omega
          rw [foldl_g0_take m l _ hlen, hg0, List.filter_cons_of_pos (by simpa using hP)]
          obtain ⟨k, hk⟩ : ∃ k, (m + 1) / 2 - G.g0.length = k + 1 :=
            ⟨(m + 1) / 2 - G.g0.length - 1, by omega⟩
          rw [hk, List.take_succ_cons, List.length_append, List.length_singleton]
          have hkk : (m + 1) / 2 - (G.g0.length + 1) = k := by omega
          rw [hkk, List.append_assoc, List.singleton_append]
        · have hfull : (m + 1) / 2 - G.g0.length = 0 := by omega
          have hg0 : (lodAssign LOD_DISTANCES m G b).g0 = G.g0 :=
            lodAssign_g0_neg _ _ _ _ (fun hc => hl hc.2)
          have hlen : (lodAssign LOD_DISTANCES m G b).g0.length ≤ (m + 1) / 2 := by
            rw [hg0]; exact hle
          rw [foldl_g0_take m l _ hlen, hg0, hfull]
          simp
      · have hg0 : (lodAssign LOD_DISTANCES m G b).g0 = G.g0 :=
          lodAssign_g0_neg _ _ _ _ (fun hc => hP hc.1)
        have hlen : (lodAssign LOD_DISTANCES m G b).g0.length ≤ (m + 1) / 2 := by
          rw [hg0]; exact hle
        rw [foldl_g0_take m l _ hlen, hg0, List.filter_cons_of_neg (by simpa using hP)]

lemma foldl_spill_g1 (m : ℕ) :
    ∀ (l : List BuildingD) (G : Groups),
      l.Sorted distLE →
      G.g1.length ≤ m →
      (∀ x ∈ G.g1, ∀ z ∈ l, x.2 ≤ z.2) →
      ∀ y ∈ l, y.2 < LOD_DISTANCES.HIGH * LOD_DISTANCES.HIGH →
        y ∉ (l.foldl (lodAssign LOD_DISTANCES m) G).g0 →
        y ∉ (l.foldl (lodAssign LOD_DISTANCES m) G).g1 →
        ((l.foldl (lodAssign LOD_DISTANCES m) G).g1).length = m ∧
          ∀ x ∈ (l.foldl (lodAssign LOD_DISTANCES m) G).g1, x.2 ≤ y.2
  | [], _, _, _, _ => by intro y hy; cases hy
  | b :: l, G, hsort, hlen, hprev => by
      intro y hy hyH hy0 hy1
      rw [List.foldl_cons] at hy0 hy1 ⊢
      rcases List.mem_cons.mp hy with rfl | hyl
      · have hc0 : ¬ (y.2 < LOD_DISTANCES.ULTRA_HIGH * LOD_DISTANCES.ULTRA_HIGH ∧
            2 * G.g0.length < m) := by
          intro hc
          obtain ⟨t, ht⟩ := foldl_g0_append LOD_DISTANCES m l (lodAssign LOD_DISTANCES m G y)
          apply hy0
          rw [ht, lodAssign_g0_pos _ _ _ _ hc]
          simp
        have hfull : G.g1.length = m := by
          by_contra hne
          have hlt : G.g1.length < m := lt_of_le_of_ne hlen hne
          have hc1 : (lodAssign LOD_DISTANCES m G y).g1 = G.g1 ++ [y] := by
            simp only [lodAssign]
            rw [if_neg hc0, if_pos ⟨hyH, hlt⟩]
          obtain ⟨t, ht⟩ := foldl_g1_append LOD_DISTANCES m l (lodAssign LOD_DISTANCES m G y)
          apply hy1
          rw [ht, hc1]
          simp
        have hg1 : (lodAssign LOD_DISTANCES m G y).g1 = G.g1 := by
          rcases lodAssign_g1_cases LOD_DISTANCES m G y with h1 | ⟨hlt, _⟩
          · exact h1
          · exact absurd hlt (by omega)
        have hfrozen :
            ((l.foldl (lodAssign LOD_DISTANCES m) (lodAssign LOD_DISTANCES m G y)).g1) = G.g1 := by
          rw [foldl_g1_frozen LOD_DISTANCES m l _ (by rw [hg1, hfull]), hg1]
        rw [hfrozen]
        exact ⟨hfull, fun x hx => hprev x hx y (List.mem_cons_self y l)⟩
      · apply foldl_spill_g1 m l (lodAssign LOD_DISTANCES m G b) hsort.of_cons ?_ ?_ y hyl hyH hy0 hy1
        · rcases lodAssign_g1_cases LOD_DISTANCES m G b with h1 | ⟨hlt, h1⟩ <;> rw [h1]
          · exact hlen
          · rw [List.length_append, List.length_singleton]
            omega
        · rcases lodAssign_g1_cases LOD_DISTANCES m G b with h1 | ⟨_, h1⟩ <;> rw [h1]
          · exact fun x hx z hz => hprev x hx z (List.mem_cons_of_mem _ hz)
          · intro x hx z hz
            rcases List.mem_append.mp hx with hx' | hx'
            · exact hprev x hx' z (List.mem_cons_of_mem _ hz)
            · rcases List.mem_singleton.mp hx' with rfl
              exact List.rel_of_sorted_cons hsort z hz

lemma lodAssign_g2_cases (T : LodDistanceTable) (m : ℕ) (G : Groups) (b : BuildingD) :
    (lodAssign T m G b).g2 = G.g2 ∨ (lodAssign T m G b).g2 = G.g2 ++ [b] := by
  simp only [lodAssign]
  split_ifs <;> first | exact Or.inl rfl | exact Or.inr rfl

lemma foldl_g2_append (T : LodDistanceTable) (m : ℕ) :
    ∀ (l : List BuildingD) (G : Groups),
      ∃ t, ((l.foldl (lodAssign T m) G).g2) = G.g2 ++ t
  | [], G => ⟨[], by simp⟩
  | b :: l, G => by
      obtain ⟨t, ht⟩ := foldl_g2_append T m l (lodAssign T m G b)
      rw [List.foldl_cons]
      rcases lodAssign_g2_cases T m G b with h1 | h1
      · exact ⟨t, by rw [ht, h1]⟩
      · exact ⟨[b] ++ t, by rw [ht, h1, List.append_assoc]⟩

lemma lodAssign_mem_g012 (m : ℕ) (G : Groups) (y : BuildingD)
    (h : y.2 < LOD_DISTANCES.MEDIUM * LOD_DISTANCES.MEDIUM) :
    y ∈ (lodAssign LOD_DISTANCES m G y).g0 ∨ y ∈ (lodAssign LOD_DISTANCES m G y).g1 ∨
      y ∈ (lodAssign LOD_DISTANCES m G y).g2 := by
  simp only [lodAssign]
  split_ifs with h0 h1 <;> simp

lemma foldl_mem_g012 (m : ℕ) :
    ∀ (l : List BuildingD) (G : Groups),
      ∀ y ∈ l, y.2 < LOD_DISTANCES.MEDIUM * LOD_DISTANCES.MEDIUM →
        y ∈ (l.foldl (lodAssign LOD_DISTANCES m) G).g0 ∨
        y ∈ (l.foldl (lodAssign LOD_DISTANCES m) G).g1 ∨
        y ∈ (l.foldl (lodAssign LOD_DISTANCES m) G).g2
  | [], _ => by intro y hy; cases hy
  | b :: l, G => by
      intro y hy hM
      rw [List.foldl_cons]
      rcases List.mem_cons.mp hy with rfl | hyl
      · obtain ⟨t0, ht0⟩ := foldl_g0_append LOD_DISTANCES m l (lodAssign LOD_DISTANCES m G y)
        obtain ⟨t1, ht1⟩ := foldl_g1_append LOD_DISTANCES m l (lodAssign LOD_DISTANCES m G y)
        obtain ⟨t2, ht2⟩ := foldl_g2_append LOD_DISTANCES m l (lodAssign LOD_DISTANCES m G y)
        rcases lodAssign_mem_g012 m G y hM with hm | hm | hm
        · exact Or.inl (by rw [ht0]; exact List.mem_append_left _ hm)
        · exact Or.inr (Or.inl (by rw [ht1]; exact List.mem_append_left _ hm))
        · exact Or.inr (Or.inr (by rw [ht2]; exact List.mem_append_left _ hm))
      · exact foldl_mem_g012 m l (lodAssign LOD_DISTANCES m G b) y hyl hM

lemma buildingsWithDistance_sorted (buildings : List Building) (cameraPos : ℚ × ℚ × ℚ) :
    (buildingsWithDistance buildings cameraPos).Sorted distLE :=
  List.sorted_insertionSort distLE _

/-- C2 (amended): capacity respect with ties broken by input order, not
by id.  Bucket 0 is exactly the first `⌈m / 2⌉` entries of the
ascending-distance stable sort restricted to objects within
`ULTRA_HIGH`, so it holds the nearest eligible candidates with ties
broken by input order; bucket 0 holds at most `⌈m / 2⌉` objects and
bucket 1 at most `m`; the sorted list is ascending; and when an
eligible object is spilled past bucket 1, bucket 1 is full and every
bucket-1 member is at distance no greater than the spilled object's. -/
theorem lodGroups_capacity (buildings : List Building) (cameraPos : ℚ × ℚ × ℚ) (m : ℕ) :
    (lodGroups buildings cameraPos m).g0
        = ((buildingsWithDistance buildings cameraPos).filter fun x =>
            decide (x.2 < LOD_DISTANCES.ULTRA_HIGH * LOD_DISTANCES.ULTRA_HIGH)).take ((m + 1) / 2)
      ∧ (lodGroups buildings cameraPos m).g0.length ≤ (m + 1) / 2
      ∧ (lodGroups buildings cameraPos m).g1.length ≤ m
      ∧ (buildingsWithDistance buildings cameraPos).Sorted distLE
      ∧ (∀ y ∈ buildingsWithDistance buildings cameraPos,
          y.2 < LOD_DISTANCES.HIGH * LOD_DISTANCES.HIGH →
          y ∉ (lodGroups buildings cameraPos m).g0 →
          y ∉ (lodGroups buildings cameraPos m).g1 →
          (lodGroups buildings cameraPos m).g1.length = m ∧
            ∀ x ∈ (lodGroups buildings cameraPos m).g1, x.2 ≤ y.2) := by
  have hunfold : lodGroups buildings cameraPos m
      = (buildingsWithDistance buildings cameraPos).foldl (lodAssign LOD_DISTANCES m)
          Groups.empty := rfl
  have htake := foldl_g0_take m (buildingsWithDistance buildings cameraPos) Groups.empty
    (by simp [Groups.empty])
  constructor
  · rw [hunfold, htake]
    simp [Groups.empty]
  refine ⟨?_, ?_, buildingsWithDistance_sorted buildings cameraPos, ?_⟩
  · rw [hunfold, htake]
    simp [Groups.empty]
  · rw [hunfold]
    exact foldl_g1_le LOD_DISTANCES m _ Groups.empty (by simp [Groups.empty])
  · intro y hy hyH hy0 hy1
    rw [hunfold] at hy0 hy1 ⊢
    exact foldl_spill_g1 m (buildingsWithDistance buildings cameraPos) Groups.empty
      (buildingsWithDistance_sorted buildings cameraPos) (by simp [Groups.empty])
      (by intro x hx; cases hx) y hy hyH hy0 hy1

/-- C3: spill-down on overflow.  No object strictly within the overall
distance range is omitted from the partition: it lands in one of the
five buckets.  An object within the bucket-0 range that bucket 0
rejects lands in bucket 1 or bucket 2, and an object within the
bucket-1 range rejected by buckets 0 and 1 lands exactly in bucket 2 —
the next tier in sequence. -/
theorem lodGroups_spill_no_drop (buildings : List Building) (cameraPos : ℚ × ℚ × ℚ) (m : ℕ) :
    (∀ y ∈ buildingsWithDistance buildings cameraPos,
        y.2 < LOD_DISTANCES.VERY_LOW * LOD_DISTANCES.VERY_LOW →
        (y ∈ (lodGroups buildings cameraPos m).g0 ∨ y ∈ (lodGroups buildings cameraPos m).g1 ∨
          y ∈ (lodGroups buildings cameraPos m).g2 ∨ y ∈ (lodGroups buildings cameraPos m).g3 ∨
          y ∈ (lodGroups buildings cameraPos m).g4))
      ∧ (∀ y ∈ buildingsWithDistance buildings cameraPos,
          y.2 < LOD_DISTANCES.ULTRA_HIGH * LOD_DISTANCES.ULTRA_HIGH →
          y ∉ (lodGroups buildings cameraPos m).g0 →
          (y ∈ (lodGroups buildings cameraPos m).g1 ∨ y ∈ (lodGroups buildings cameraPos m).g2))
      ∧ (∀ y ∈ buildingsWithDistance buildings cameraPos,
          y.2 < LOD_DISTANCES.HIGH * LOD_DISTANCES.HIGH →
          y ∉ (lodGroups buildings cameraPos m).g0 →
          y ∉ (lodGroups buildings cameraPos m).g1 →
          y ∈ (lodGroups buildings cameraPos m).g2) := by
  have hunfold : lodGroups buildings cameraPos m
      = (buildingsWithDistance buildings cameraPos).foldl (lodAssign LOD_DISTANCES m)
          Groups.empty := rfl
  have hmem012 : ∀ y ∈ buildingsWithDistance buildings cameraPos,
      y.2 < LOD_DISTANCES.MEDIUM * LOD_DISTANCES.MEDIUM →
      y ∈ (lodGroups buildings cameraPos m).g0 ∨ y ∈ (lodGroups buildings cameraPos m).g1 ∨
        y ∈ (lodGroups buildings cameraPos m).g2 := by
    rw [hunfold]
    exact foldl_mem_g012 m _ Groups.empty
  refine ⟨?_, ?_, ?_⟩
  · intro y hy hyV
    have hperm := allMembers_foldl_perm m (buildingsWithDistance buildings cameraPos) Groups.empty
    have hyf : y ∈ (buildingsWithDistance buildings cameraPos).filter fun b =>
        decide (b.2 < LOD_DISTANCES.VERY_LOW * LOD_DISTANCES.VERY_LOW) :=
      List.mem_filter.mpr ⟨hy, by simpa using hyV⟩
    have hym : y ∈ (lodGroups buildings cameraPos m).allMembers := by
      rw [hunfold]
      exact hperm.mem_iff.mpr (List.mem_append_left _ hyf)
    simpa [Groups.allMembers] using hym
  · intro y hy hyU hy0
    have hM : y.2 < LOD_DISTANCES.MEDIUM * LOD_DISTANCES.MEDIUM := by
      simp only [LOD_DISTANCES] at hyU ⊢
      linarith
    rcases hmem012 y hy hM with h | h | h
    · exact absurd h hy0
    · exact Or.inl h
    · exact Or.inr h
  · intro y hy hyH hy0 hy1
    have hM : y.2 < LOD_DISTANCES.MEDIUM * LOD_DISTANCES.MEDIUM := by
      simp only [LOD_DISTANCES] at hyH ⊢
      linarith
    rcases hmem012 y hy hM with h | h | h
    · exact absurd h hy0
    · exact absurd h hy1
    · exact h

lemma insertionSort_filter_key (l : List BuildingD) (q : ℚ) :
    ((l.insertionSort distLE).filter fun x => decide (x.2 = q))
      = l.filter fun x => decide (x.2 = q) := by
  have hpair : (l.filter fun x => decide (x.2 = q)).Pairwise distLE := by
    apply List.pairwise_of_forall_mem_list
    intro a ha b hb
    have ha' : a.2 = q := by simpa using (List.mem_filter.mp ha).2
    have hb' : b.2 = q := by simpa using (List.mem_filter.mp hb).2
    unfold distLE
    rw [ha', hb']
  have hsub : List.Sublist (l.filter fun x => decide (x.2 = q)) l := List.filter_sublist l
  have h1 : List.Sublist (l.filter fun x => decide (x.2 = q)) (l.insertionSort distLE) :=
    List.sublist_insertionSort hpair hsub
  have h2 : ((l.filter fun x => decide (x.2 = q)).filter fun x => decide (x.2 = q))
      = l.filter fun x => decide (x.2 = q) :=
    List.filter_eq_self.mpr fun a ha => (List.mem_filter.mp ha).2
  have h3 : List.Sublist (l.filter fun x => decide (x.2 = q))
      ((l.insertionSort distLE).filter fun x => decide (x.2 = q)) := by
    have := h1.filter fun x => decide (x.2 = q)
    rwa [h2] at this
  have h4 : (((l.insertionSort distLE).filter fun x => decide (x.2 = q))).Perm
      (l.filter fun x => decide (x.2 = q)) :=
    (List.perm_insertionSort distLE l).filter _
  exact (h3.eq_of_length h4.length_eq.symm).symm

/-- C4: partition determinism.  Two partition runs over identical object
sets, camera positions and capacity parameters produce identical group
assignments, and the sort is stable: for every distance value, the
objects at that distance appear in the sorted list exactly in their
input order (so the output is fully determined even with distance
ties). -/
theorem lodGroups_deterministic (bs1 bs2 : List Building) (cam1 cam2 : ℚ × ℚ × ℚ)
    (m1 m2 : ℕ) (hb : bs1 = bs2) (hc : cam1 = cam2) (hm : m1 = m2) :
    lodGroups bs1 cam1 m1 = lodGroups bs2 cam2 m2
      ∧ ∀ q : ℚ,
          ((buildingsWithDistance bs1 cam1).filter fun x => decide (x.2 = q))
            = (bs1.map fun b => (b, sqDist b.position cam1)).filter fun x => decide (x.2 = q) := by
  subst hb hc hm
  exact ⟨rfl, fun q => insertionSort_filter_key _ q⟩

/-- C2, counterexample to the claim as stated: three objects at the same
distance, supplied in input order `"b"`, `"c"`, `"a"`, with
`maxDetailedBuildings = 2` (bucket-0 capacity `1`).  The code assigns
`"b"` — the first in input order — to bucket 0, while a tie-break by
object id would pick `"a"` (ascending) or `"c"` (descending), never
`"b"`. -/
theorem lodGroups_tie_not_by_id :
    ((lodGroups tieSet (0, 0, 0) 2).g0.map fun x => x.1.id) = ["b"]
      ∧ ((buildingsWithDistance tieSet (0, 0, 0)).map fun x => x.1.id) = ["b", "c", "a"]
      ∧ ((buildingsWithDistance tieSet (0, 0, 0)).map fun x => x.2) = [100, 100, 100] := by
  refine ⟨?_, ?_, ?_⟩ <;>
    norm_num [lodGroups, lodGroupsWith, buildingsWithDistance, sqDist, List.insertionSort,
      List.orderedInsert, distLE, lodAssign, LOD_DISTANCES, Groups.empty, tieSet, tieA, tieB, tieC]

/-- Witness for `lodGroups_capacity`: with `maxDetailedBuildings = 1`
and three objects inside the `ULTRA_HIGH` range, the spilled third
object forces bucket 1 to be full (length `1 = m`). -/
theorem lodGroups_capacity_witness :
    (lodGroups nearSet (0, 0, 0) 1).g1.length = 1 := by
  refine ((lodGroups_capacity nearSet (0, 0, 0) 1).2.2.2.2 ((nearB3, (900 : ℚ)))
    ?_ ?_ ?_ ?_).1
  · norm_num [buildingsWithDistance, nearSet, nearB1, nearB2, nearB3, sqDist,
      List.insertionSort, List.orderedInsert, distLE]
  · norm_num [LOD_DISTANCES]
  · norm_num [lodGroups, lodGroupsWith, buildingsWithDistance, sqDist, List.insertionSort,
      List.orderedInsert, distLE, lodAssign, LOD_DISTANCES, Groups.empty, nearSet, nearB1,
      nearB2, nearB3]
  · norm_num [lodGroups, lodGroupsWith, buildingsWithDistance, sqDist, List.insertionSort,
      List.orderedInsert, distLE, lodAssign, LOD_DISTANCES, Groups.empty, nearSet, nearB1,
      nearB2, nearB3]

/-- Witness for `lodGroups_spill_no_drop`: with `m = 0` both capacity
buckets are empty and the nearest object spills to bucket 2. -/
theorem lodGroups_spill_witness :
    ((nearB1, (100 : ℚ))) ∈ (lodGroups nearSet (0, 0, 0) 0).g2 := by
  refine (lodGroups_spill_no_drop nearSet (0, 0, 0) 0).2.2 ((nearB1, (100 : ℚ))) ?_ ?_ ?_ ?_
  · norm_num [buildingsWithDistance, nearSet, nearB1, nearB2, nearB3, sqDist,
      List.insertionSort, List.orderedInsert, distLE]
  · norm_num [LOD_DISTANCES]
  · norm_num [lodGroups, lodGroupsWith, buildingsWithDistance, sqDist, List.insertionSort,
      List.orderedInsert, distLE, lodAssign, LOD_DISTANCES, Groups.empty, nearSet, nearB1,
      nearB2, nearB3]
  · norm_num [lodGroups, lodGroupsWith, buildingsWithDistance, sqDist, List.insertionSort,
      List.orderedInsert, distLE, lodAssign, LOD_DISTANCES, Groups.empty, nearSet, nearB1,
      nearB2, nearB3]

/-- Witness for `lodGroups_deterministic`: repeated runs on the
tie-breaking example coincide, and the equal-distance objects keep
their input order. -/
theorem lodGroups_deterministic_witness :
    lodGroups tieSet (0, 0, 0) 2 = lodGroups tieSet (0, 0, 0) 2 ∧
      ((buildingsWithDistance tieSet (0, 0, 0)).filter fun x => decide (x.2 = 100))
        = (tieSet.map fun b => (b, sqDist b.position (0, 0, 0))).filter
            fun x => decide (x.2 = 100) := by
  have h := lodGroups_deterministic tieSet tieSet (0, 0, 0) (0, 0, 0) 2 2 rfl rfl rfl
  exact ⟨h.1, h.2 100⟩

/-- C5 (amended): `adaptQuality` has no hysteresis counters; on every
evaluation whose average FPS is below `targetFPS * 0.8` it immediately
scales `lodDistances.high`/`medium` by `0.9` (floored at `200`/`800`)
and `maxRenderDistance` by `0.95` (floored at `2000`) — the floors are
the only "never below the floor" behaviour that survives. -/
theorem adaptQuality_immediate_downgrade (s : OptimizationSettings) (h : List ℚ)
    (hne : h.length ≠ 0) (hlow : h.sum / (h.length : ℚ) < s.targetFPS * (8 / 10)) :
    adaptQuality s h =
        { s with
          lodDistances :=
            { s.lodDistances with
              high := max 200 (s.lodDistances.high * (9 / 10))
              medium := max 800 (s.lodDistances.medium * (9 / 10)) }
          maxRenderDistance := max 2000 (s.maxRenderDistance * (95 / 100)) }
      ∧ 200 ≤ (adaptQuality s h).lodDistances.high
      ∧ 800 ≤ (adaptQuality s h).lodDistances.medium
      ∧ 2000 ≤ (adaptQuality s h).maxRenderDistance := by
  have heq : adaptQuality s h =
      { s with
        lodDistances :=
          { s.lodDistances with
            high := max 200 (s.lodDistances.high * (9 / 10))
            medium := max 800 (s.lodDistances.medium * (9 / 10)) }
        maxRenderDistance := max 2000 (s.maxRenderDistance * (95 / 100)) } := by
    unfold adaptQuality
    rw [if_neg hne, if_pos hlow]
  refine ⟨heq, ?_, ?_, ?_⟩ <;> rw [heq] <;> exact le_max_left _ _

/-- C5, counterexample to the claim as stated: with a constant low FPS
history, the very first evaluation already changes the settings and
the second evaluation changes them again — two quality transitions in
two consecutive evaluations, so no run of K ≥ 3 consecutive low
samples is required and transitions are not spaced K evaluations
apart. -/
theorem adaptQuality_no_hysteresis :
    adaptQuality initialSettings [30] ≠ initialSettings ∧
      adaptQuality (adaptQuality initialSettings [30]) [30] ≠
        adaptQuality initialSettings [30] := by
  constructor <;> norm_num [adaptQuality, initialSettings]

/-- Witness for `adaptQuality_immediate_downgrade` at the initial
settings and the one-sample history `[30]` (average `30 < 48`). -/
theorem adaptQuality_downgrade_witness :
    adaptQuality initialSettings [30] =
        { initialSettings with
          lodDistances :=
            { initialSettings.lodDistances with
              high := max 200 (initialSettings.lodDistances.high * (9 / 10))
              medium := max 800 (initialSettings.lodDistances.medium * (9 / 10)) }
          maxRenderDistance := max 2000 (initialSettings.maxRenderDistance * (95 / 100)) }
      ∧ 200 ≤ (adaptQuality initialSettings [30]).lodDistances.high
      ∧ 800 ≤ (adaptQuality initialSettings [30]).lodDistances.medium
      ∧ 2000 ≤ (adaptQuality initialSettings [30]).maxRenderDistance :=
  adaptQuality_immediate_downgrade initialSettings [30] (by norm_num)
    (by norm_num [initialSettings])

/-- C6 (amended): the tier table is the hard-coded constant
`LOD_DISTANCES`, which is statically well formed — positive and
strictly increasing thresholds — so no malformed table can reach the
partitioner; the code contains no load-time validation and no
`ConfigurationError`. -/
theorem LOD_DISTANCES_well_formed :
    0 < LOD_DISTANCES.ULTRA_HIGH ∧ LOD_DISTANCES.ULTRA_HIGH < LOD_DISTANCES.HIGH ∧
      LOD_DISTANCES.HIGH < LOD_DISTANCES.MEDIUM ∧ LOD_DISTANCES.MEDIUM < LOD_DISTANCES.LOW ∧
      LOD_DISTANCES.LOW < LOD_DISTANCES.VERY_LOW := by
  norm_num [LOD_DISTANCES]

/-- C6, counterexample to the claim as stated: on a strictly decreasing
(malformed) distance table the partitioner does not reject the
configuration — it runs to completion and classifies both objects into
bucket 0. -/
theorem malformed_table_still_partitions :
    ¬ (malformedTable.ULTRA_HIGH < malformedTable.HIGH) ∧
      lodGroupsWith malformedTable [malB1, malB2] (0, 0, 0) 50 =
        { g0 := [(malB1, 62500), (malB2, 202500)], g1 := [], g2 := [], g3 := [], g4 := [] } := by
  constructor
  · norm_num [malformedTable]
  · norm_num [lodGroupsWith, buildingsWithDistance, sqDist, List.insertionSort,
      List.orderedInsert, distLE, lodAssign, malformedTable, Groups.empty, malB1, malB2]

/-- C8 (amended): the per-frame FPS update never raises an error — it is
a total function on the JavaScript-number model — and for every
nonzero frame duration the smoothed FPS is a finite number.  No
clamping to an epsilon exists; finiteness fails only at duration `0`
(see the counterexample). -/
theorem updatePerformanceFps_total_finite (p d : ℚ) (hd : d ≠ 0) :
    ∃ q : ℚ, updatePerformanceFps (.num p) (.num d) = .num q := by
  simp only [updatePerformanceFps, jsDiv, if_neg hd, jsRound, jsMul, jsAdd, jsRoundQ]
  exact ⟨_, rfl⟩

/-- Witness for `updatePerformanceFps_total_finite` at
`prev = 60`, `deltaTime = 1/60`. -/
theorem updatePerformanceFps_witness :
    ∃ q : ℚ, updatePerformanceFps (.num 60) (.num (1 / 60)) = .num q :=
  updatePerformanceFps_total_finite 60 (1 / 60) (by norm_num)

/-- C8, counterexample to the claim as stated: a frame duration of `0`
is not clamped; `1 / 0` is `Infinity` in JavaScript, so the smoothed
FPS becomes `Infinity` — not a finite number. -/
theorem updatePerformanceFps_zero_infinite :
    updatePerformanceFps (.num 60) (.num 0) = .posInf ∧
      ∀ q : ℚ, JSVal.posInf ≠ JSVal.num q := by
  constructor
  · norm_num [updatePerformanceFps, jsDiv, jsRound, jsMul, jsAdd, jsRoundQ]
  · exact fun q h => JSVal.noConfusion h

lemma adaptQuality_preserves_ordered (s : OptimizationSettings) (h : List ℚ)
    (hs : SettingsOrdered s) : SettingsOrdered (adaptQuality s h) := by
  obtain ⟨i1, i2, i3, i4⟩ := hs
  simp only [adaptQuality, SettingsOrdered]
  split_ifs with h0 h1 h2
  · exact ⟨i1, i2, i3, i4⟩
  · refine ⟨?_, ?_, ?_, ?_⟩
    · exact lt_max_of_lt_left (by norm_num)
    · exact max_lt_iff.mpr ⟨lt_max_iff.mpr (Or.inl (by norm_num)),
        lt_max_iff.mpr (Or.inr (by linarith))⟩
    · exact max_lt_iff.mpr ⟨by linarith, by linarith⟩
    · exact i4
  · refine ⟨?_, ?_, ?_, ?_⟩
    · exact lt_min_iff.mpr ⟨by norm_num, by linarith⟩
    · exact lt_min_iff.mpr ⟨min_lt_iff.mpr (Or.inl (by norm_num)),
        min_lt_iff.mpr (Or.inr (by linarith))⟩
    · exact min_lt_iff.mpr (Or.inl (by linarith))
    · exact i4
  · exact ⟨i1, i2, i3, i4⟩

lemma runAdapt_ordered_aux :
    ∀ (hs : List (List ℚ)) (s : OptimizationSettings), SettingsOrdered s →
      SettingsOrdered (hs.foldl adaptQuality s)
  | [], _, h => h
  | h :: hs, s, hord => by
      rw [List.foldl_cons]
      exact runAdapt_ordered_aux hs _ (adaptQuality_preserves_ordered s h hord)

lemma runAdapt_ordered (hs : List (List ℚ)) : SettingsOrdered (runAdapt hs) :=
  runAdapt_ordered_aux hs initialSettings (by norm_num [SettingsOrdered, initialSettings])

lemma lodLevelOf_mono_of_ordered (s : OptimizationSettings) (hord : SettingsOrdered s)
    (d1 d2 : ℚ) (h12 : d1 ≤ d2) : lodLevelOf s d1 ≤ lodLevelOf s d2 := by
  obtain ⟨i1, i2, i3, _⟩ := hord
  unfold lodLevelOf
  split_ifs <;> first | (exfalso; linarith) | norm_num

/-- C9: LOD level monotonicity in distance.  For every settings state
reachable from the initial configuration by any sequence of
`adaptQuality` evaluations, the distance thresholds stay strictly
ordered (`high < medium < low`), `applyLOD`'s level is monotonically
non-decreasing in viewer distance, and any object farther than
`lodDistances.low` gets the culled level `3` and is made invisible. -/
theorem applyLOD_monotone (hs : List (List ℚ)) (d1 d2 : ℚ) (h12 : d1 ≤ d2) :
    ((runAdapt hs).lodDistances.high < (runAdapt hs).lodDistances.medium ∧
        (runAdapt hs).lodDistances.medium < (runAdapt hs).lodDistances.low)
      ∧ lodLevelOf (runAdapt hs) d1 ≤ lodLevelOf (runAdapt hs) d2
      ∧ ∀ d : ℚ, (runAdapt hs).lodDistances.low < d →
          lodLevelOf (runAdapt hs) d = 3 ∧ applyLODVisible (runAdapt hs) d = false := by
  have hord := runAdapt_ordered hs
  refine ⟨⟨hord.2.1, hord.2.2.1⟩, lodLevelOf_mono_of_ordered _ hord d1 d2 h12, ?_⟩
  intro d hd
  have hl : lodLevelOf (runAdapt hs) d = 3 := by
    unfold lodLevelOf
    rw [if_pos hd]
  exact ⟨hl, by simp [applyLODVisible, hl]⟩

/-- Witness for `applyLOD_monotone` at the initial settings
(`runAdapt []`), distances `0 ≤ 1`, and culling distance `5000`. -/
theorem applyLOD_monotone_witness :
    lodLevelOf (runAdapt []) 0 ≤ lodLevelOf (runAdapt []) 1 ∧
      (lodLevelOf (runAdapt []) 5000 = 3 ∧ applyLODVisible (runAdapt []) 5000 = false) := by
  have h := applyLOD_monotone [] 0 1 (by norm_num)
  exact ⟨h.2.1, h.2.2 5000 (by norm_num [runAdapt, initialSettings])⟩

lemma updateMetrics_history_le (st : OptimizerState) (t : ℚ)
    (h : st.fpsHistory.length ≤ 10) : (updateMetrics st t).fpsHistory.length ≤ 10 := by
  simp only [updateMetrics]
  split_ifs <;> simp_all [List.length_tail, List.length_append]

lemma foldl_updateMetrics_history_le :
    ∀ (ts : List ℚ) (st : OptimizerState), st.fpsHistory.length ≤ 10 →
      ((ts.foldl updateMetrics st).fpsHistory).length ≤ 10
  | [], _, h => h
  | t :: ts, st, h => by
      rw [List.foldl_cons]
      exact foldl_updateMetrics_history_le ts _ (updateMetrics_history_le st t h)

/-- C10: FPS history window invariant.  After any sequence of
`updateMetrics` calls from the initial state, `fpsHistory` holds at
most 10 entries. -/
theorem fpsHistory_window_bounded (ts : List ℚ) :
    ((ts.foldl updateMetrics initialOptimizerState).fpsHistory).length ≤ 10 :=
  foldl_updateMetrics_history_le ts initialOptimizerState (by norm_num [initialOptimizerState])

lemma addToCategories_keys_nodup (cats : List (CategoryKey × List Building)) (b : Building)
    (h : (cats.map Prod.fst).Nodup) : ((addToCategories cats b).map Prod.fst).Nodup := by
  simp only [addToCategories]
  split_ifs with hmem
  · have hkeys : ((cats.map fun c => if c.1 = categoryKey b then (c.1, c.2 ++ [b]) else c).map
        Prod.fst) = cats.map Prod.fst := by
      rw [List.map_map]
      apply List.map_congr_left
      intro c _
      by_cases hc : c.1 = categoryKey b <;> simp [hc]
    rw [hkeys]
    exact h
  · rw [List.map_append]
    simp only [List.map_cons, List.map_nil]
    rw [List.nodup_append]
    refine ⟨h, List.nodup_singleton _, ?_⟩
    intro k hk
    simp only [List.mem_singleton]
    intro hkeq
    apply hmem
    rw [List.any_eq_true]
    obtain ⟨c, hc, hceq⟩ := List.mem_map.mp hk
    exact ⟨c, hc, by simp [hceq, hkeq]⟩

lemma foldl_categories_keys_nodup :
    ∀ (bs : List Building) (cats : List (CategoryKey × List Building)),
      (cats.map Prod.fst).Nodup → ((bs.foldl addToCategories cats).map Prod.fst).Nodup
  | [], _, h => h
  | b :: bs, cats, h => by
      rw [List.foldl_cons]
      exact foldl_categories_keys_nodup bs _ (addToCategories_keys_nodup cats b h)

lemma categorize_length_le (bs : List Building) :
    (categorizeBuildingsForInstancing bs).length ≤ 16 := by
  have hnd := foldl_categories_keys_nodup bs [] (by simp)
  have hcard : Fintype.card CategoryKey = 16 := by
    simp [Fintype.card_prod]
    rfl
  have hle := hnd.length_le_card
  rw [hcard] at hle
  calc (categorizeBuildingsForInstancing bs).length
      = ((categorizeBuildingsForInstancing bs).map Prod.fst).length := (List.length_map _ _).symm
    _ ≤ 16 := hle

/-- C7 (amended): the total number of instanced batches is bounded by
(number of instanced LOD buckets) × (height classes × material types)
= 3 × 16 = 48, independent of the object count.  The per-bucket batch
key is `(height class, material)`, not the material alone, so the
correct object-count-independent bound is 48, not
`tiers × materials`. -/
theorem instancedBatchCount_bounded (buildings : List Building) (cameraPos : ℚ × ℚ × ℚ)
    (m : ℕ) : instancedBatchCount buildings cameraPos m ≤ 48 := by
  simp only [instancedBatchCount]
  have h2 := categorize_length_le ((lodGroups buildings cameraPos m).g2.map Prod.fst)
  have h3 := categorize_length_le ((lodGroups buildings cameraPos m).g3.map Prod.fst)
  have h4 := categorize_length_le ((lodGroups buildings cameraPos m).g4.map Prod.fst)
  omega

/-- C7, counterexample to the claim as stated: 21 buildings, one per
occupied `(height class, material)` pair, produce 21 instanced batches,
which exceeds `lodTierCount × distinctMaterialCategories = 5 × 4 = 20`
— the claimed bound is violated even though the scene uses only the
four closed-set material categories. -/
theorem batch_bound_exceeded :
    instancedBatchCount batchSet (0, 0, 0) 50 = 21 ∧
      distinctMaterialCount batchSet = 4 ∧
      lodTierCount * distinctMaterialCount batchSet < instancedBatchCount batchSet (0, 0, 0) 50 := by
  have h1 : instancedBatchCount batchSet (0, 0, 0) 50 = 21 := by
    simp only [instancedBatchCount, lodGroups, lodGroupsWith, buildingsWithDistance, sqDist,
      List.insertionSort, List.orderedInsert, distLE, lodAssign, LOD_DISTANCES, Groups.empty,
      batchSet, mkBatchB, categorizeBuildingsForInstancing, addToCategories, categoryKey,
      heightClassOf, List.foldl]
    repeat (first
      | rfl
      | norm_num [reduceCtorEq, distLE, lodAssign, addToCategories, categoryKey, heightClassOf]
      | simp [reduceCtorEq, distLE, lodAssign, addToCategories, categoryKey, heightClassOf])
  have h2 : distinctMaterialCount batchSet = 4 := by decide
  exact ⟨h1, h2, by rw [h1, h2]; norm_num [lodTierCount]⟩

end CityGenerator
